import Mathlib

/-!
Shallow embedding of the Kabanda reminder scheduler
(src/core/models.py, src/core/tasks.py, src/core/views.py).

Time is modelled as seconds since the epoch (a `Nat`); `timezone.now()`
becomes an explicit `now : Time` parameter.  Message formatting is a
declared non-goal of the spec, so outbound messages are modelled as
structured data (`OutMessage`) rather than formatted strings.  Calls to
the external Telegram channel may fail; a `sendOk : Bool` parameter
models whether the send call returns normally or raises.
-/

namespace Kabanda

abbrev Time := Nat

def secondsPerMinute : Nat := 60

def secondsPerDay : Nat := 86400

/-- Task.STATUS_CHOICES in models.py. -/
inductive TaskStatus where
  | pending
  | in_progress
  | completed
  | cancelled
  | snoozed
deriving DecidableEq, Repr

/-- The Task model (models.py, class Task): the fields the scheduler,
router and callback handler read or write. -/
structure Task where
  id : Nat
  userId : Nat
  title : String
  status : TaskStatus
  dueAt : Time
  createdAt : Time
  completedAt : Option Time
  snoozedUntil : Option Time
  reminderCount : Nat
  lastRemindedAt : Option Time
  hasLocation : Bool
deriving DecidableEq, Repr

/-- models.py Task.mark_completed. -/
def Task.mark_completed (t : Task) (now : Time) : Task :=
  { t with status := .completed, completedAt := some now }

/-- models.py Task.snooze(minutes): sets status snoozed and
snoozed_until = now + minutes. -/
def Task.snooze (t : Task) (now : Time) (minutes : Nat) : Task :=
  { t with status := .snoozed,
           snoozedUntil := some (now + minutes * secondsPerMinute) }

/-- models.py Task.increment_reminder. -/
def Task.increment_reminder (t : Task) (now : Time) : Task :=
  { t with reminderCount := t.reminderCount + 1, lastRemindedAt := some now }

/-- Reminder.STATUS_CHOICES in models.py. -/
inductive ReminderStatus where
  | scheduled
  | sent
  | delivered
  | failed
  | acknowledged
deriving DecidableEq, Repr

/-- Outbound messages, abstracted to their structure (formatting is a
spec non-goal).  `tasksList` carries the tasks rendered by
_format_tasks_list; the escalation constructors record the wording tier
chosen by escalate_reminder. -/
inductive OutMessage where
  | taskConfirmation (title : String) (due : Time)
  | reminderText (title : String) (count : Nat)
  | locationWidget (taskId : Nat)
  | persistentEscalation (title : String) (count : Nat)
  | urgentEscalation (title : String) (count : Nat)
  | modifyConfirmation (title : String) (due : Time)
  | modifyNotFound
  | deleteConfirmation (title : String)
  | deleteNotFound
  | tasksList (tasks : List Task)
  | conversational (text : String)
  | completedAck (title : String)
  | snoozedAck (title : String)
  | unknownActionAck
deriving DecidableEq, Repr

/-- The Reminder model (models.py, class Reminder): one row per dispatch
attempt, append-only. -/
structure Reminder where
  taskId : Nat
  channel : String
  status : ReminderStatus
  scheduledAt : Time
  sentAt : Option Time
  messageContent : OutMessage
deriving DecidableEq, Repr

/-- models.py Reminder.mark_sent. -/
def Reminder.mark_sent (r : Reminder) (now : Time) : Reminder :=
  { r with status := .sent, sentAt := some now }

/-- ConversationLog direction choices. -/
inductive Direction where
  | incoming
  | outgoing
deriving DecidableEq, Repr

/-- The ConversationLog model (models.py): the fields the idempotency
check in parse_user_message reads. -/
structure ConversationLog where
  userId : Nat
  direction : Direction
  content : String
  telegramMessageId : Option Nat
deriving DecidableEq, Repr

/-- The durable repository: tasks, reminder history, conversation logs
and the telegram_chat_id UserContext mapping (chatId, userId), plus
fresh-id counters standing in for autoincrement primary keys. -/
structure DB where
  tasks : List Task
  reminders : List Reminder
  logs : List ConversationLog
  chatUsers : List (Nat × Nat)
  nextTaskId : Nat
  nextUserId : Nat
deriving DecidableEq, Repr

/-- Task.objects.get(id=task_id). -/
def DB.getTask (db : DB) (taskId : Nat) : Option Task :=
  db.tasks.find? (fun t => decide (t.id = taskId))

/-- task.save(): replace the row with the same primary key. -/
def DB.saveTask (db : DB) (t : Task) : DB :=
  { db with tasks := db.tasks.map (fun u => if u.id = t.id then t else u) }

/-- The three Celery task kinds of tasks.py, with their arguments. -/
inductive Job where
  | intake (userId : Nat) (message : String) (telegramMessageId : Option Nat)
  | dispatch (taskId : Nat)
  | escalate (taskId : Nat)
deriving DecidableEq, Repr

/-- apply_async(eta=...): a job together with its fire time. -/
structure ScheduledJob where
  job : Job
  eta : Time
deriving DecidableEq, Repr

/-- Ordered side effects of one job execution, used to state the
create-before-send ordering of the dispatcher. -/
inductive TraceEvent where
  | createReminder (r : Reminder)
  | sendMessage (m : OutMessage)
  | markSent (taskId : Nat)
  | incrementCounter (taskId : Nat)
  | enqueueJob (j : ScheduledJob)
deriving DecidableEq, Repr

/-- How one Celery job execution ends: normal return, Task.DoesNotExist
(logged, not retried), self.retry(countdown) raised, or an uncaught
error in a job with no retry configured. -/
inductive JobOutcome where
  | done
  | notFound
  | retryLater (countdown : Nat)
  | failedNoRetry
deriving DecidableEq, Repr

/-- Result of one job-body execution: the repository afterwards, the
jobs it enqueued, the messages actually delivered, the ordered side
effect trace, and how the execution ended. -/
structure JobResult where
  db : DB
  enqueued : List ScheduledJob
  sent : List OutMessage
  trace : List TraceEvent
  outcome : JobOutcome
deriving DecidableEq, Repr

/-- tasks.py _format_reminder_message, abstracted to its structure. -/
def format_reminder_message (t : Task) : OutMessage :=
  .reminderText t.title t.reminderCount

/-- The send section of schedule_reminder (tasks.py lines 311-346):
create the Reminder row in status scheduled, invoke the send, mark it
sent on success (a raised send jumps to the except handler and retries
with countdown 300), then the optional location widget, the counter
increment, and the conditional escalation enqueue. -/
def schedule_reminder_send (now : Time) (db : DB) (task : Task)
    (sendOk : Bool) : JobResult :=
  let msg := format_reminder_message task
  let reminder : Reminder :=
    { taskId := task.id, channel := "telegram", status := .scheduled,
      scheduledAt := now, sentAt := none, messageContent := msg }
  let db1 : DB := { db with reminders := db.reminders ++ [reminder] }
  if sendOk then
    let db2 : DB :=
      { db1 with reminders := db.reminders ++ [reminder.mark_sent now] }
    let widget : List OutMessage :=
      if task.hasLocation then [.locationWidget task.id] else []
    let task2 := task.increment_reminder now
    let db3 := db2.saveTask task2
    let esc : List ScheduledJob :=
      if 2 ≤ task2.reminderCount then [⟨.escalate task.id, now + 600⟩] else []
    { db := db3, enqueued := esc, sent := msg :: widget,
      trace := [.createReminder reminder, .sendMessage msg,
                .markSent task.id] ++ widget.map .sendMessage ++
               [.incrementCounter task.id] ++ esc.map .enqueueJob,
      outcome := .done }
  else
    { db := db1, enqueued := [], sent := [],
      trace := [.createReminder reminder, .sendMessage msg],
      outcome := .retryLater 300 }

/-- tasks.py schedule_reminder (the reminder-dispatch job body).  The
snoozed branch compares snoozed_until with now only when status is
snoozed; a missing snoozed_until there raises in Python and is caught by
the generic handler, which retries with countdown 300. -/
def schedule_reminder (now : Time) (db : DB) (taskId : Nat)
    (sendOk : Bool) : JobResult :=
  match db.getTask taskId with
  | none => { db := db, enqueued := [], sent := [], trace := [], outcome := .notFound }
  | some task =>
    if task.status = .completed ∨ task.status = .cancelled then
      { db := db, enqueued := [], sent := [], trace := [], outcome := .done }
    else if task.status = .snoozed then
      match task.snoozedUntil with
      | some s =>
        if now < s then
          { db := db, enqueued := [⟨.dispatch taskId, s⟩], sent := [],
            trace := [.enqueueJob ⟨.dispatch taskId, s⟩], outcome := .done }
        else schedule_reminder_send now db task sendOk
      | none =>
        { db := db, enqueued := [], sent := [], trace := [], outcome := .retryLater 300 }
    else schedule_reminder_send now db task sendOk

/-- The wording tier of escalate_reminder (tasks.py lines 372-377):
urgent at reminder_count >= 3, persistent below. -/
def escalation_message (t : Task) : OutMessage :=
  if 3 ≤ t.reminderCount then .urgentEscalation t.title t.reminderCount
  else .persistentEscalation t.title t.reminderCount

/-- tasks.py escalate_reminder (the escalation job body): plain
@shared_task with no retry configured, so a raised send ends the job
with no further statements executed. -/
def escalate_reminder (now : Time) (db : DB) (taskId : Nat)
    (sendOk : Bool) : JobResult :=
  match db.getTask taskId with
  | none => { db := db, enqueued := [], sent := [], trace := [], outcome := .notFound }
  | some task =>
    if task.status = .completed ∨ task.status = .cancelled then
      { db := db, enqueued := [], sent := [], trace := [], outcome := .done }
    else
      let msg := escalation_message task
      if sendOk then
        let task2 := task.increment_reminder now
        let db2 := db.saveTask task2
        let next : List ScheduledJob :=
          if task2.reminderCount < 10 then [⟨.escalate taskId, now + 600⟩] else []
        { db := db2, enqueued := next, sent := [msg],
          trace := [.sendMessage msg, .incrementCounter taskId] ++
                   next.map .enqueueJob,
          outcome := .done }
      else
        { db := db, enqueued := [], sent := [],
          trace := [.sendMessage msg], outcome := .failedNoRetry }

/-- The self-chaining escalation loop on one task, assuming nothing else
touches the task: one escalate_reminder execution, then the chain
continues at now + 600 exactly when that execution re-enqueued itself
(reminder_count after increment still below 10).  Returns the number of
escalation sends in the chain. -/
def escalate_chain_sends (now : Time) (t : Task) : Nat :=
  if t.status = .completed ∨ t.status = .cancelled then 0
  else
    if (t.increment_reminder now).reminderCount < 10 then
      1 + escalate_chain_sends (now + 600) (t.increment_reminder now)
    else 1
termination_by 10 - t.reminderCount
decreasing_by
  simp only [Task.increment_reminder] at *
  omega

/-- tasks.py _find_recent_task: Task.objects.filter(user, status
pending).order_by(descending created_at).first().  The fold keeps the
element with the strictly greatest created_at seen so far. -/
def pick_latest : Option Task → List Task → Option Task
  | acc, [] => acc
  | none, t :: ts => pick_latest (some t) ts
  | some b, t :: ts =>
    pick_latest (some (if b.createdAt < t.createdAt then t else b)) ts

/-- tasks.py _find_recent_task. -/
def find_recent_task (db : DB) (userId : Nat) : Option Task :=
  pick_latest none
    (db.tasks.filter (fun t => decide (t.userId = userId ∧ t.status = .pending)))

/-- tasks.py _find_and_modify_task: returns the found task even when no
new due time was parsed; on a new due time it saves the change and
re-schedules the dispatch job at the new due time. -/
def find_and_modify_task (db : DB) (userId : Nat) (due : Option Time) :
    DB × List ScheduledJob × Option Task :=
  match find_recent_task db userId with
  | none => (db, [], none)
  | some task =>
    match due with
    | some d =>
      let task2 := { task with dueAt := d }
      (db.saveTask task2, [⟨.dispatch task.id, d⟩], some task2)
    | none => (db, [], some task)

/-- Insertion step for ordering by due_at (order_by due_at). -/
def insert_by_due (t : Task) : List Task → List Task
  | [] => [t]
  | u :: us => if t.dueAt ≤ u.dueAt then t :: u :: us else u :: insert_by_due t us

/-- order_by due_at, modelled as insertion sort. -/
def sort_by_due : List Task → List Task
  | [] => []
  | t :: ts => insert_by_due t (sort_by_due ts)

/-- Midnight of the current day: now.replace(hour=0, minute=0, second=0,
microsecond=0). -/
def day_start (now : Time) : Time := now - now % secondsPerDay

/-- tasks.py _get_user_tasks: the owner's pending tasks filtered by the
query-type time window, ordered by due_at. -/
def get_user_tasks (db : DB) (userId : Nat) (queryType : String)
    (now : Time) : List Task :=
  let todayStart := day_start now
  let todayEnd := todayStart + secondsPerDay
  let base :=
    db.tasks.filter (fun t => decide (t.userId = userId ∧ t.status = .pending))
  let filtered :=
    if queryType = "afternoon" then
      base.filter (fun t =>
        decide (todayStart + 12 * 3600 ≤ t.dueAt ∧ t.dueAt < todayStart + 18 * 3600))
    else if queryType = "evening" then
      base.filter (fun t =>
        decide (todayStart + 18 * 3600 ≤ t.dueAt ∧ t.dueAt < todayEnd))
    else if queryType = "morning" then
      base.filter (fun t =>
        decide (todayStart ≤ t.dueAt ∧ t.dueAt < todayStart + 12 * 3600))
    else if queryType = "week" then
      base.filter (fun t =>
        decide (todayStart ≤ t.dueAt ∧ t.dueAt < todayStart + 7 * secondsPerDay))
    else if queryType = "upcoming" then
      base.filter (fun t =>
        decide (now ≤ t.dueAt ∧ t.dueAt < todayStart + 30 * secondsPerDay))
    else if queryType = "all" then
      base.filter (fun t => decide (now ≤ t.dueAt))
    else
      base.filter (fun t => decide (todayStart ≤ t.dueAt ∧ t.dueAt < todayEnd))
  sort_by_due filtered

/-- The structured intent returned by the Intent Extraction collaborator,
restricted to the branches of parse_user_message the claims concern
(the multi-task and pending-location branches carry no claim). -/
inductive Parsed where
  | new_task (title : String) (due : Time)
  | modify_task (due : Option Time)
  | delete_task
  | query_tasks (queryType : String)
  | general (response : Option String)
deriving DecidableEq, Repr

/-- Result of one message-intake job execution. -/
structure IntakeResult where
  db : DB
  enqueued : List ScheduledJob
  sent : List OutMessage
deriving DecidableEq, Repr

/-- Shared tail of every intent branch: log the outgoing response and
deliver it. -/
def intake_finish (db : DB) (userId : Nat) (jobs : List ScheduledJob)
    (resp : OutMessage) : IntakeResult :=
  { db := { db with logs := db.logs ++
      [{ userId := userId, direction := .outgoing, content := "",
         telegramMessageId := none }] },
    enqueued := jobs, sent := [resp] }

/-- tasks.py parse_user_message (the message-intake job body).  The
execution-layer idempotency check (lines 52-63) returns before any
durable effect when an incoming ConversationLog with the same
telegram_message_id already exists for this user; otherwise the
incoming message is logged and the intent branch runs. -/
def parse_user_message (now : Time) (db : DB) (userId : Nat)
    (message : String) (tmid : Option Nat) (parsed : Parsed) : IntakeResult :=
  let dup :=
    match tmid with
    | some m =>
      db.logs.any (fun l =>
        decide (l.userId = userId ∧ l.telegramMessageId = some m ∧
                l.direction = Direction.incoming))
    | none => false
  if dup then { db := db, enqueued := [], sent := [] }
  else
    let inLog : ConversationLog :=
      { userId := userId, direction := .incoming, content := message,
        telegramMessageId := tmid }
    let db0 : DB := { db with logs := db.logs ++ [inLog] }
    match parsed with
    | .new_task title due =>
      let task : Task :=
        { id := db0.nextTaskId, userId := userId, title := title,
          status := .pending, dueAt := due, createdAt := now,
          completedAt := none, snoozedUntil := none, reminderCount := 0,
          lastRemindedAt := none, hasLocation := false }
      let db1 : DB :=
        { db0 with
          tasks := db0.tasks ++ [task],
          nextTaskId := db0.nextTaskId + 1 }
      intake_finish db1 userId [⟨.dispatch task.id, due⟩]
        (.taskConfirmation title due)
    | .modify_task due =>
      match find_and_modify_task db0 userId due with
      | (db1, jobs, some t) =>
        intake_finish db1 userId jobs (.modifyConfirmation t.title t.dueAt)
      | (db1, jobs, none) =>
        intake_finish db1 userId jobs .modifyNotFound
    | .delete_task =>
      match find_recent_task db0 userId with
      | some t =>
        intake_finish (db0.saveTask { t with status := .cancelled }) userId []
          (.deleteConfirmation t.title)
      | none => intake_finish db0 userId [] .deleteNotFound
    | .query_tasks qt =>
      intake_finish db0 userId [] (.tasksList (get_user_tasks db0 userId qt now))
    | .general r =>
      intake_finish db0 userId []
        (.conversational (r.getD
          "I am listening. You can ask me to remind you of tasks or check your schedule."))

/-- A Telegram update as seen by the webhook: a button callback (its
action_taskId payload already split at the underscore), a text message,
or anything else. -/
inductive Update where
  | callback (action : String) (taskId : Nat) (fromChatId : Nat)
      (callbackId : Nat)
  | message (chatId : Nat) (text : String) (messageId : Nat)
  | other
deriving DecidableEq, Repr

/-- views.py _get_or_create_user_from_chat_id. -/
def get_or_create_user_from_chat_id (db : DB) (chatId : Nat) : DB × Nat :=
  match db.chatUsers.find? (fun p => decide (p.1 = chatId)) with
  | some p => (db, p.2)
  | none =>
    ({ db with
       chatUsers := db.chatUsers ++ [(chatId, db.nextUserId)],
       nextUserId := db.nextUserId + 1 }, db.nextUserId)

/-- views.py _handle_callback_query: supports the actions complete and
snooze (30 minutes); any other action, including delete, falls through
to the Unknown-action acknowledgment with no task change.  The callback
id is used only to address the acknowledgment; no record of it is kept.
Returns the repository and the acknowledgment (callbackId, text). -/
def handle_callback_query (now : Time) (db : DB) (action : String)
    (taskId : Nat) (fromChatId : Nat) (callbackId : Nat) :
    DB × Option (Nat × OutMessage) :=
  let (db1, userId) := get_or_create_user_from_chat_id db fromChatId
  match db1.tasks.find? (fun t => decide (t.id = taskId ∧ t.userId = userId)) with
  | none => (db1, none)
  | some task =>
    if action = "complete" then
      (db1.saveTask (task.mark_completed now),
       some (callbackId, .completedAck task.title))
    else if action = "snooze" then
      (db1.saveTask (task.snooze now 30),
       some (callbackId, .snoozedAck task.title))
    else
      (db1, some (callbackId, .unknownActionAck))

/-- Result of one webhook delivery: the repository, the intake jobs
enqueued (parse_user_message.delay), the HTTP status, and the callback
acknowledgment if the update was a button press. -/
structure WebhookResult where
  db : DB
  enqueued : List Job
  statusCode : Nat
  ack : Option (Nat × OutMessage)
deriving DecidableEq, Repr

/-- views.py telegram_webhook: button callbacks go to
_handle_callback_query; a text message resolves the user from the chat
id and unconditionally enqueues a message-intake job — the webhook never
consults the conversation logs before enqueueing. -/
def telegram_webhook (now : Time) (db : DB) (u : Update) : WebhookResult :=
  match u with
  | .callback action taskId fromChatId callbackId =>
    let (db1, ack) := handle_callback_query now db action taskId fromChatId callbackId
    { db := db1, enqueued := [], statusCode := 200, ack := ack }
  | .message chatId text messageId =>
    if chatId = 0 ∨ text = "" then
      { db := db, enqueued := [], statusCode := 200, ack := none }
    else
      let (db1, userId) := get_or_create_user_from_chat_id db chatId
      { db := db1, enqueued := [.intake userId text (some messageId)],
        statusCode := 200, ack := none }
  | .other => { db := db, enqueued := [], statusCode := 200, ack := none }

/-- A per-job-kind retry policy: whether the queue retries at all, the
retry cap, and the delay before retry attempt number `attempt`. -/
structure RetryPolicy where
  autoRetry : Bool
  maxRetries : Nat
  countdown : Nat → Nat

/-- @shared_task(bind=True, max_retries=3) with
self.retry(countdown=60 * 2 ** self.request.retries). -/
def parse_user_message_policy : RetryPolicy :=
  { autoRetry := true, maxRetries := 3, countdown := fun attempt => 60 * 2 ^ attempt }

/-- @shared_task(bind=True, max_retries=5) with self.retry(countdown=300). -/
def schedule_reminder_policy : RetryPolicy :=
  { autoRetry := true, maxRetries := 5, countdown := fun _ => 300 }

/-- Plain @shared_task: no retry configured for the escalation job. -/
def escalate_reminder_policy : RetryPolicy :=
  { autoRetry := false, maxRetries := 0, countdown := fun _ => 0 }

/-- The retry policy attached to each job kind. -/
def job_retry_policy : Job → RetryPolicy
  | .intake _ _ _ => parse_user_message_policy
  | .dispatch _ => schedule_reminder_policy
  | .escalate _ => escalate_reminder_policy

/-! Helper lemmas. -/

theorem getTask_id (db : DB) (taskId : Nat) (t : Task)
    (h : db.getTask taskId = some t) : t.id = taskId := by
  unfold DB.getTask at h
  have hp := List.find?_some h
  simpa using hp

theorem getTask_mem (db : DB) (taskId : Nat) (t : Task)
    (h : db.getTask taskId = some t) : t ∈ db.tasks := by
  exact List.mem_of_find?_eq_some (by simpa [DB.getTask] using h)

theorem mem_insert_by_due (a t : Task) (l : List Task) :
    a ∈ insert_by_due t l ↔ a = t ∨ a ∈ l := by
  induction l with
  | nil => simp [insert_by_due]
  | cons u us ih =>
    simp only [insert_by_due]
    split
    · simp [List.mem_cons]
    · simp [List.mem_cons, ih]
      tauto

theorem mem_sort_by_due (a : Task) (l : List Task) :
    a ∈ sort_by_due l ↔ a ∈ l := by
  induction l with
  | nil => simp [sort_by_due]
  | cons t ts ih => simp [sort_by_due, mem_insert_by_due, ih, List.mem_cons]

theorem pick_latest_spec (l : List Task) :
    ∀ (acc : Option Task) (t : Task), pick_latest acc l = some t →
      (acc = some t ∨ t ∈ l) ∧ (∀ u ∈ l, u.createdAt ≤ t.createdAt) ∧
      (∀ b, acc = some b → b.createdAt ≤ t.createdAt) := by
  induction l with
  | nil =>
    intro acc t h
    simp only [pick_latest] at h
    refine ⟨Or.inl h, by simp, ?_⟩
    intro b hb
    rw [h] at hb
    cases hb
    exact Nat.le_refl _
  | cons hd tl ih =>
    intro acc t h
    rcases acc with _ | b
    · simp only [pick_latest] at h
      obtain ⟨hmem, hup, hacc⟩ := ih (some hd) t h
      have hhd : hd.createdAt ≤ t.createdAt := hacc hd rfl
      refine ⟨?_, ?_, ?_⟩
      · rcases hmem with heq | hm
        · exact Or.inr (by simp [List.mem_cons, Option.some.inj heq.symm])
        · exact Or.inr (List.mem_cons_of_mem _ hm)
      · intro u hu
        rcases List.mem_cons.mp hu with rfl | hu2
        · exact hhd
        · exact hup u hu2
      · intro b hb
        cases hb
    · simp only [pick_latest] at h
      by_cases hlt : b.createdAt < hd.createdAt
      · rw [if_pos hlt] at h
        obtain ⟨hmem, hup, hacc⟩ := ih (some hd) t h
        have hhd : hd.createdAt ≤ t.createdAt := hacc hd rfl
        refine ⟨?_, ?_, ?_⟩
        · rcases hmem with heq | hm
          · exact Or.inr (by simp [List.mem_cons, Option.some.inj heq.symm])
          · exact Or.inr (List.mem_cons_of_mem _ hm)
        · intro u hu
          rcases List.mem_cons.mp hu with rfl | hu2
          · exact hhd
          · exact hup u hu2
        · intro c hc
          cases hc
          exact Nat.le_trans (Nat.le_of_lt hlt) hhd
      · rw [if_neg hlt] at h
        obtain ⟨hmem, hup, hacc⟩ := ih (some b) t h
        have hb : b.createdAt ≤ t.createdAt := hacc b rfl
        have hhd : hd.createdAt ≤ t.createdAt :=
          Nat.le_trans (Nat.le_of_not_lt hlt) hb
        refine ⟨?_, ?_, ?_⟩
        · rcases hmem with heq | hm
          · exact Or.inl heq
          · exact Or.inr (List.mem_cons_of_mem _ hm)
        · intro u hu
          rcases List.mem_cons.mp hu with rfl | hu2
          · exact hhd
          · exact hup u hu2
        · intro c hc
          cases hc
          exact hb

theorem pick_latest_some_ne_none (l : List Task) :
    ∀ b : Task, pick_latest (some b) l ≠ none := by
  induction l with
  | nil => intro b h; cases h
  | cons hd tl ih =>
    intro b h
    simp only [pick_latest] at h
    by_cases hlt : b.createdAt < hd.createdAt
    · rw [if_pos hlt] at h
      exact ih hd h
    · rw [if_neg hlt] at h
      exact ih b h

theorem find_recent_task_some (db : DB) (userId : Nat) (t : Task)
    (h : find_recent_task db userId = some t) :
    t ∈ db.tasks ∧ t.userId = userId ∧ t.status = .pending ∧
    ∀ u ∈ db.tasks, u.userId = userId → u.status = .pending →
      u.createdAt ≤ t.createdAt := by
  obtain ⟨hmem, hup, _⟩ := pick_latest_spec _ none t h
  rcases hmem with heq | hm
  · cases heq
  · have hm2 := List.mem_filter.mp hm
    have hprop := of_decide_eq_true hm2.2
    refine ⟨hm2.1, hprop.1, hprop.2, ?_⟩
    intro u hu h1 h2
    exact hup u (List.mem_filter.mpr ⟨hu, decide_eq_true ⟨h1, h2⟩⟩)

theorem find_recent_task_none (db : DB) (userId : Nat)
    (h : find_recent_task db userId = none) :
    ∀ u ∈ db.tasks, ¬(u.userId = userId ∧ u.status = .pending) := by
  intro u hu hprop
  unfold find_recent_task at h
  rcases hfil : db.tasks.filter
      (fun t => decide (t.userId = userId ∧ t.status = .pending)) with _ | ⟨hd, tl⟩
  · have : u ∈ db.tasks.filter
        (fun t => decide (t.userId = userId ∧ t.status = .pending)) :=
      List.mem_filter.mpr ⟨hu, decide_eq_true hprop⟩
    rw [hfil] at this
    cases this
  · rw [hfil] at h
    simp only [pick_latest] at h
    exact pick_latest_some_ne_none tl hd h

theorem escalate_chain_sends_le (k : Nat) :
    ∀ (now : Time) (t : Task), 10 - t.reminderCount ≤ k →
      escalate_chain_sends now t ≤ max 1 (10 - t.reminderCount) := by
  induction k with
  | zero =>
    intro now t hk
    rw [escalate_chain_sends]
    split
    · exact Nat.zero_le _
    · have hc : (t.increment_reminder now).reminderCount = t.reminderCount + 1 := rfl
      rw [if_neg (by omega)]
      omega
  | succ n ih =>
    intro now t hk
    rw [escalate_chain_sends]
    split
    · exact Nat.zero_le _
    · have hc : (t.increment_reminder now).reminderCount = t.reminderCount + 1 := rfl
      by_cases hlt : (t.increment_reminder now).reminderCount < 10
      · rw [if_pos hlt]
        have hrec := ih (now + 600) (t.increment_reminder now) (by omega)
        omega
      · rw [if_neg hlt]
        omega

theorem escalate_chain_sends_le_ten (now : Time) (t : Task) :
    escalate_chain_sends now t ≤ 10 := by
  have h := escalate_chain_sends_le (10 - t.reminderCount) now t (Nat.le_refl _)
  omega

/-! Concrete fixtures used by witnesses and counterexamples. -/

def mkTask (id uid : Nat) (st : TaskStatus) (due created : Time) (rc : Nat) : Task :=
  { id := id, userId := uid, title := "call mom", status := st, dueAt := due,
    createdAt := created, completedAt := none, snoozedUntil := none,
    reminderCount := rc, lastRemindedAt := none, hasLocation := false }

def mkDB (ts : List Task) : DB :=
  { tasks := ts, reminders := [], logs := [], chatUsers := [(77, 1)],
    nextTaskId := 100, nextUserId := 2 }

/-! Claim theorems. -/

/-- C2: for every task whose status is completed or cancelled, a fired
dispatch job (schedule_reminder) and a fired escalation job
(escalate_reminder) are both no-ops: the repository is unchanged (so no
Reminder record is created and reminder_count / last_reminded_at keep
their values), no job is enqueued, and no outbound message is sent. -/
theorem C2_terminal_noop (now : Time) (db : DB) (taskId : Nat)
    (sendOk : Bool) (task : Task)
    (h1 : db.getTask taskId = some task)
    (h2 : task.status = .completed ∨ task.status = .cancelled) :
    schedule_reminder now db taskId sendOk =
      { db := db, enqueued := [], sent := [], trace := [], outcome := .done } ∧
    escalate_reminder now db taskId sendOk =
      { db := db, enqueued := [], sent := [], trace := [], outcome := .done } := by
  constructor
  · simp [schedule_reminder, h1, h2]
  · simp [escalate_reminder, h1, h2]

/-- C2 witness: a concrete completed task. -/
theorem C2_terminal_noop_witness :
    schedule_reminder 5 (mkDB [mkTask 1 1 .completed 3 0 0]) 1 true =
      { db := mkDB [mkTask 1 1 .completed 3 0 0], enqueued := [], sent := [],
        trace := [], outcome := .done } ∧
    escalate_reminder 5 (mkDB [mkTask 1 1 .completed 3 0 0]) 1 true =
      { db := mkDB [mkTask 1 1 .completed 3 0 0], enqueued := [], sent := [],
        trace := [], outcome := .done } :=
  C2_terminal_noop 5 (mkDB [mkTask 1 1 .completed 3 0 0]) 1 true
    (mkTask 1 1 .completed 3 0 0) (by decide) (Or.inl (by decide))

/-- C10: an escalation-job execution on a non-terminal task creates no
Reminder record and leaves logs untouched; on a successful send the only
task mutations are the reminder_count increment and last_reminded_at
update (status, due_at, snoozed_until, title, created_at unchanged); on
a failed send the repository is unchanged entirely. -/
theorem C10_escalation_frame (now : Time) (db : DB) (taskId : Nat)
    (sendOk : Bool) (task : Task)
    (h1 : db.getTask taskId = some task)
    (h2 : ¬(task.status = .completed ∨ task.status = .cancelled)) :
    (escalate_reminder now db taskId sendOk).db.reminders = db.reminders ∧
    (escalate_reminder now db taskId sendOk).db.logs = db.logs ∧
    (sendOk = true →
      (escalate_reminder now db taskId sendOk).db =
        db.saveTask (task.increment_reminder now) ∧
      (task.increment_reminder now).reminderCount = task.reminderCount + 1 ∧
      (task.increment_reminder now).lastRemindedAt = some now ∧
      (task.increment_reminder now).status = task.status ∧
      (task.increment_reminder now).dueAt = task.dueAt ∧
      (task.increment_reminder now).snoozedUntil = task.snoozedUntil ∧
      (task.increment_reminder now).title = task.title ∧
      (task.increment_reminder now).createdAt = task.createdAt) ∧
    (sendOk = false → (escalate_reminder now db taskId sendOk).db = db) := by
  cases sendOk <;>
    simp [escalate_reminder, h1, h2, DB.saveTask, Task.increment_reminder]

/-- C10 witness: a concrete pending task with two prior reminders. -/
theorem C10_escalation_frame_witness :
    (escalate_reminder 40 (mkDB [mkTask 1 1 .pending 3 0 2]) 1 true).db.reminders =
      (mkDB [mkTask 1 1 .pending 3 0 2]).reminders ∧
    (escalate_reminder 40 (mkDB [mkTask 1 1 .pending 3 0 2]) 1 true).db.logs =
      (mkDB [mkTask 1 1 .pending 3 0 2]).logs ∧
    (true = true →
      (escalate_reminder 40 (mkDB [mkTask 1 1 .pending 3 0 2]) 1 true).db =
        (mkDB [mkTask 1 1 .pending 3 0 2]).saveTask
          ((mkTask 1 1 .pending 3 0 2).increment_reminder 40) ∧
      ((mkTask 1 1 .pending 3 0 2).increment_reminder 40).reminderCount =
        (mkTask 1 1 .pending 3 0 2).reminderCount + 1 ∧
      ((mkTask 1 1 .pending 3 0 2).increment_reminder 40).lastRemindedAt = some 40 ∧
      ((mkTask 1 1 .pending 3 0 2).increment_reminder 40).status =
        (mkTask 1 1 .pending 3 0 2).status ∧
      ((mkTask 1 1 .pending 3 0 2).increment_reminder 40).dueAt =
        (mkTask 1 1 .pending 3 0 2).dueAt ∧
      ((mkTask 1 1 .pending 3 0 2).increment_reminder 40).snoozedUntil =
        (mkTask 1 1 .pending 3 0 2).snoozedUntil ∧
      ((mkTask 1 1 .pending 3 0 2).increment_reminder 40).title =
        (mkTask 1 1 .pending 3 0 2).title ∧
      ((mkTask 1 1 .pending 3 0 2).increment_reminder 40).createdAt =
        (mkTask 1 1 .pending 3 0 2).createdAt) ∧
    (true = false →
      (escalate_reminder 40 (mkDB [mkTask 1 1 .pending 3 0 2]) 1 true).db =
        mkDB [mkTask 1 1 .pending 3 0 2]) :=
  C10_escalation_frame 40 (mkDB [mkTask 1 1 .pending 3 0 2]) 1 true
    (mkTask 1 1 .pending 3 0 2) (by decide) (by decide)

/-- C4: a dispatch-job execution on a task with status snoozed and
snoozed_until strictly in the future re-enqueues a dispatch job at
snoozed_until and terminates with no message, no Reminder record, and no
counter change; consequently, for a task snoozed for k minutes at time
tS, any dispatch execution before tS + k minutes leaves the repository
unchanged and sends nothing. -/
theorem C4_snooze_defers (now : Time) (db : DB) (taskId : Nat)
    (sendOk : Bool) (task : Task) (s : Time)
    (h1 : db.getTask taskId = some task)
    (h2 : task.status = .snoozed)
    (h3 : task.snoozedUntil = some s)
    (h4 : now < s) :
    schedule_reminder now db taskId sendOk =
      { db := db, enqueued := [⟨.dispatch taskId, s⟩], sent := [],
        trace := [.enqueueJob ⟨.dispatch taskId, s⟩], outcome := .done } ∧
    (∀ (t0 : Task) (tS : Time) (k : Nat) (fire : Time) (db2 : DB) (sOk : Bool),
      db2.getTask taskId = some (t0.snooze tS k) →
      fire < tS + k * secondsPerMinute →
      (schedule_reminder fire db2 taskId sOk).db = db2 ∧
      (schedule_reminder fire db2 taskId sOk).sent = [] ∧
      (schedule_reminder fire db2 taskId sOk).db.reminders = db2.reminders) := by
  have hterm : ¬(task.status = .completed ∨ task.status = .cancelled) := by
    rw [h2]; decide
  constructor
  · simp [schedule_reminder, h1, hterm, h2, h3, h4]
  · intro t0 tS k fire db2 sOk hget hfire
    have hsn : (t0.snooze tS k).status = .snoozed := rfl
    have hsu : (t0.snooze tS k).snoozedUntil = some (tS + k * secondsPerMinute) := rfl
    have hterm2 : ¬((t0.snooze tS k).status = .completed ∨
        (t0.snooze tS k).status = .cancelled) := by
      rw [hsn]; decide
    simp [schedule_reminder, hget, hterm2, hsn, hsu, hfire]

/-- C4 witness: a task snoozed at time 100 for 30 minutes, dispatch
firing at time 200 < 100 + 1800. -/
theorem C4_snooze_defers_witness :
    schedule_reminder 200 (mkDB [(mkTask 1 1 .pending 3 0 1).snooze 100 30]) 1 true =
      { db := mkDB [(mkTask 1 1 .pending 3 0 1).snooze 100 30],
        enqueued := [⟨.dispatch 1, 1900⟩], sent := [],
        trace := [.enqueueJob ⟨.dispatch 1, 1900⟩], outcome := .done } ∧
    (schedule_reminder 200 (mkDB [(mkTask 1 1 .pending 3 0 1).snooze 100 30]) 1 true).db.reminders =
      (mkDB [(mkTask 1 1 .pending 3 0 1).snooze 100 30]).reminders := by
  have h := C4_snooze_defers 200 (mkDB [(mkTask 1 1 .pending 3 0 1).snooze 100 30])
    1 true ((mkTask 1 1 .pending 3 0 1).snooze 100 30) 1900
    (by decide) (by decide) (by decide) (by decide)
  exact ⟨h.1, by rw [h.1]⟩

def taskC5 : Task := mkTask 1 1 .pending 100 0 0

def dbC5 : DB := mkDB [taskC5]

/-- C5 counterexample: the claim says a failed send marks the Reminder
record failed with error detail; in the code a raised send jumps
straight to the retry handler, so after a failed send the only Reminder
row is still in status scheduled and no row is ever marked failed. -/
theorem C5_counterexample :
    ((schedule_reminder 200 dbC5 1 false).db.reminders.map Reminder.status) =
      [ReminderStatus.scheduled] ∧
    (schedule_reminder 200 dbC5 1 false).outcome = .retryLater 300 := by
  decide

/-- C5 (amended): in every dispatch execution that reaches the send
step, a Reminder record with status scheduled is created strictly before
the send is invoked (it is the surviving row if the send fails); after a
successful send the record is marked sent; on a send failure the record
remains in status scheduled — it is not marked failed — while the
job-level retry policy (retry in 300 seconds) takes over. -/
theorem C5_reminder_row_before_send (now : Time) (db : DB) (taskId : Nat)
    (sendOk : Bool) (task : Task)
    (h1 : db.getTask taskId = some task)
    (h2 : ¬(task.status = .completed ∨ task.status = .cancelled))
    (h3 : task.status ≠ .snoozed) :
    ∃ rec : Reminder,
      rec.status = .scheduled ∧ rec.taskId = task.id ∧ rec.scheduledAt = now ∧
      (schedule_reminder now db taskId sendOk).trace.take 2 =
        [.createReminder rec, .sendMessage (format_reminder_message task)] ∧
      (sendOk = true →
        (schedule_reminder now db taskId sendOk).db.reminders =
          db.reminders ++ [rec.mark_sent now] ∧
        (rec.mark_sent now).status = .sent) ∧
      (sendOk = false →
        (schedule_reminder now db taskId sendOk).db.reminders =
          db.reminders ++ [rec] ∧
        (schedule_reminder now db taskId sendOk).outcome = .retryLater 300) := by
  refine ⟨{ taskId := task.id, channel := "telegram", status := .scheduled,
            scheduledAt := now, sentAt := none,
            messageContent := format_reminder_message task },
          rfl, rfl, rfl, ?_, ?_, ?_⟩ <;>
    cases sendOk <;>
      simp [schedule_reminder, h1, h2, h3, schedule_reminder_send,
            Reminder.mark_sent, DB.saveTask]

/-- C5 witness: concrete successful and failed sends on a pending task. -/
theorem C5_reminder_row_before_send_witness :
    (∃ rec : Reminder,
      rec.status = .scheduled ∧ rec.taskId = taskC5.id ∧ rec.scheduledAt = 200 ∧
      (schedule_reminder 200 dbC5 1 true).trace.take 2 =
        [.createReminder rec, .sendMessage (format_reminder_message taskC5)] ∧
      (true = true →
        (schedule_reminder 200 dbC5 1 true).db.reminders =
          dbC5.reminders ++ [rec.mark_sent 200] ∧
        (rec.mark_sent 200).status = .sent) ∧
      (true = false →
        (schedule_reminder 200 dbC5 1 true).db.reminders =
          dbC5.reminders ++ [rec] ∧
        (schedule_reminder 200 dbC5 1 true).outcome = .retryLater 300)) :=
  C5_reminder_row_before_send 200 dbC5 1 true taskC5 (by decide) (by decide)
    (by decide)

/-- C7: the message-intake job retries with exponential backoff of 60
seconds times 2 to the attempt number, capped at max_retries = 3; the
reminder-dispatch job retries with a fixed 5-minute (300 second) delay,
capped at max_retries = 5, and a failed dispatch send ends in a
retry-in-300 outcome; the escalation job has no automatic retry, and a
failed escalation send leaves the repository unchanged and enqueues
nothing, so the next escalation is never rescheduled. -/
theorem C7_retry_policies :
    parse_user_message_policy.autoRetry = true ∧
    parse_user_message_policy.maxRetries = 3 ∧
    (∀ attempt, parse_user_message_policy.countdown attempt = 60 * 2 ^ attempt) ∧
    schedule_reminder_policy.autoRetry = true ∧
    schedule_reminder_policy.maxRetries = 5 ∧
    (∀ attempt, schedule_reminder_policy.countdown attempt = 5 * secondsPerMinute) ∧
    escalate_reminder_policy.autoRetry = false ∧
    (∀ (now : Time) (db : DB) (taskId : Nat) (task : Task),
      db.getTask taskId = some task →
      ¬(task.status = .completed ∨ task.status = .cancelled) →
      (escalate_reminder now db taskId false).enqueued = [] ∧
      (escalate_reminder now db taskId false).db = db ∧
      (escalate_reminder now db taskId false).outcome = .failedNoRetry) ∧
    (∀ (now : Time) (db : DB) (taskId : Nat) (task : Task),
      db.getTask taskId = some task →
      ¬(task.status = .completed ∨ task.status = .cancelled) →
      task.status ≠ .snoozed →
      (schedule_reminder now db taskId false).outcome = .retryLater 300) := by
  refine ⟨rfl, rfl, fun _ => rfl, rfl, rfl, fun _ => rfl, rfl, ?_, ?_⟩
  · intro now db taskId task h1 h2
    simp [escalate_reminder, h1, h2]
  · intro now db taskId task h1 h2 h3
    simp [schedule_reminder, h1, h2, h3, schedule_reminder_send]

/-- C7 witness: the intake backoff at attempt 2, and concrete failed
escalation and dispatch executions. -/
theorem C7_retry_policies_witness :
    parse_user_message_policy.countdown 2 = 240 ∧
    (escalate_reminder 7 (mkDB [mkTask 1 1 .pending 3 0 4]) 1 false).enqueued = [] ∧
    (escalate_reminder 7 (mkDB [mkTask 1 1 .pending 3 0 4]) 1 false).db =
      mkDB [mkTask 1 1 .pending 3 0 4] ∧
    (escalate_reminder 7 (mkDB [mkTask 1 1 .pending 3 0 4]) 1 false).outcome =
      .failedNoRetry ∧
    (schedule_reminder 7 (mkDB [mkTask 1 1 .pending 3 0 4]) 1 false).outcome =
      .retryLater 300 := by
  have h := C7_retry_policies
  have he := h.2.2.2.2.2.2.2.1 7 (mkDB [mkTask 1 1 .pending 3 0 4]) 1
    (mkTask 1 1 .pending 3 0 4) (by decide) (by decide)
  have hd := h.2.2.2.2.2.2.2.2 7 (mkDB [mkTask 1 1 .pending 3 0 4]) 1
    (mkTask 1 1 .pending 3 0 4) (by decide) (by decide) (by decide)
  exact ⟨by simpa using h.2.2.1 2, he.1, he.2.1, he.2.2, hd⟩

/-- C3: once reminder_count reaches 2 after a dispatch (that is, the
pre-dispatch count was at least 1), the escalation job is enqueued at
now + 10 minutes; an escalation send uses persistent wording while the
task's reminder_count is below 3 and urgent wording at or above 3; the
escalation job re-enqueues itself at +10 minutes exactly when the
post-increment reminder_count is below 10; and an undisturbed escalation
chain performs at most 10 sends (at most 8 from the entry count of 2),
so no 11th escalation send ever occurs. -/
theorem C3_escalation_cadence (now : Time) (db : DB) (taskId : Nat) (task : Task)
    (h1 : db.getTask taskId = some task)
    (h2 : ¬(task.status = .completed ∨ task.status = .cancelled)) :
    (task.status ≠ .snoozed → 1 ≤ task.reminderCount →
      (schedule_reminder now db taskId true).enqueued =
        [⟨.escalate taskId, now + 10 * secondsPerMinute⟩]) ∧
    (task.reminderCount < 3 →
      (escalate_reminder now db taskId true).sent =
        [.persistentEscalation task.title task.reminderCount]) ∧
    (3 ≤ task.reminderCount →
      (escalate_reminder now db taskId true).sent =
        [.urgentEscalation task.title task.reminderCount]) ∧
    ((escalate_reminder now db taskId true).enqueued =
      if task.reminderCount + 1 < 10 then
        [⟨.escalate taskId, now + 10 * secondsPerMinute⟩] else []) ∧
    (∀ (n : Time) (u : Task), escalate_chain_sends n u ≤ 10) ∧
    (2 ≤ task.reminderCount → escalate_chain_sends now task ≤ 8) := by
  have hid := getTask_id db taskId task h1
  refine ⟨?_, ?_, ?_, ?_, ?_, ?_⟩
  · intro h3 hcnt
    simp only [schedule_reminder, h1, schedule_reminder_send, if_neg h2,
      if_neg h3, if_true]
    rw [if_pos (by simp [Task.increment_reminder]; omega)]
    simp [hid, secondsPerMinute]
  · intro hlt
    simp [escalate_reminder, h1, h2, escalation_message, if_neg (by omega :
      ¬3 ≤ task.reminderCount)]
  · intro hge
    simp [escalate_reminder, h1, h2, escalation_message, if_pos hge]
  · simp only [escalate_reminder, h1, if_neg h2, if_true]
    simp [Task.increment_reminder, secondsPerMinute]
  · exact fun n u => escalate_chain_sends_le_ten n u
  · intro hc
    have h := escalate_chain_sends_le (10 - task.reminderCount) now task
      (Nat.le_refl _)
    omega

/-- C3 witness: a pending task whose count reached 2. -/
theorem C3_escalation_cadence_witness :
    (schedule_reminder 1000 (mkDB [mkTask 1 1 .pending 3 0 2]) 1 true).enqueued =
      [⟨.escalate 1, 1000 + 10 * secondsPerMinute⟩] ∧
    (escalate_reminder 1000 (mkDB [mkTask 1 1 .pending 3 0 2]) 1 true).sent =
      [.persistentEscalation "call mom" 2] ∧
    escalate_chain_sends 1000 (mkTask 1 1 .pending 3 0 2) ≤ 8 := by
  have h := C3_escalation_cadence 1000 (mkDB [mkTask 1 1 .pending 3 0 2]) 1
    (mkTask 1 1 .pending 3 0 2) (by decide) (by decide)
  exact ⟨h.1 (by decide) (by decide), h.2.1 (by decide), h.2.2.2.2.2 (by decide)⟩

/-- C6: query_tasks returns exactly the owner's pending tasks in the
requested window — morning [00:00, 12:00) of today, afternoon
[12:00, 18:00), evening [18:00, 24:00), week the 7 days from today's
start, upcoming from now until 30 days from today's start, all
everything from now onward, and any other query type (the default,
today) the whole current day — and the query mutates no task and no
reminder. -/
theorem C6_query_windows (db : DB) (userId : Nat) (now : Time) (t : Task) :
    (t ∈ get_user_tasks db userId "morning" now ↔
      t ∈ db.tasks ∧ t.userId = userId ∧ t.status = .pending ∧
      day_start now ≤ t.dueAt ∧ t.dueAt < day_start now + 12 * 3600) ∧
    (t ∈ get_user_tasks db userId "afternoon" now ↔
      t ∈ db.tasks ∧ t.userId = userId ∧ t.status = .pending ∧
      day_start now + 12 * 3600 ≤ t.dueAt ∧ t.dueAt < day_start now + 18 * 3600) ∧
    (t ∈ get_user_tasks db userId "evening" now ↔
      t ∈ db.tasks ∧ t.userId = userId ∧ t.status = .pending ∧
      day_start now + 18 * 3600 ≤ t.dueAt ∧ t.dueAt < day_start now + 24 * 3600) ∧
    (t ∈ get_user_tasks db userId "week" now ↔
      t ∈ db.tasks ∧ t.userId = userId ∧ t.status = .pending ∧
      day_start now ≤ t.dueAt ∧ t.dueAt < day_start now + 7 * secondsPerDay) ∧
    (t ∈ get_user_tasks db userId "upcoming" now ↔
      t ∈ db.tasks ∧ t.userId = userId ∧ t.status = .pending ∧
      now ≤ t.dueAt ∧ t.dueAt < day_start now + 30 * secondsPerDay) ∧
    (t ∈ get_user_tasks db userId "all" now ↔
      t ∈ db.tasks ∧ t.userId = userId ∧ t.status = .pending ∧ now ≤ t.dueAt) ∧
    (∀ qt : String, qt ≠ "morning" → qt ≠ "afternoon" → qt ≠ "evening" →
      qt ≠ "week" → qt ≠ "upcoming" → qt ≠ "all" →
      (t ∈ get_user_tasks db userId qt now ↔
        t ∈ db.tasks ∧ t.userId = userId ∧ t.status = .pending ∧
        day_start now ≤ t.dueAt ∧ t.dueAt < day_start now + secondsPerDay)) ∧
    (∀ (msg : String) (tmid : Option Nat) (qt : String),
      (parse_user_message now db userId msg tmid (.query_tasks qt)).db.tasks =
        db.tasks ∧
      (parse_user_message now db userId msg tmid (.query_tasks qt)).db.reminders =
        db.reminders) := by
  refine ⟨?_, ?_, ?_, ?_, ?_, ?_, ?_, ?_⟩
  · simp [get_user_tasks, mem_sort_by_due, List.mem_filter, decide_eq_true_eq,
      and_assoc]
    tauto
  · simp [get_user_tasks, mem_sort_by_due, List.mem_filter, decide_eq_true_eq,
      and_assoc]
    tauto
  · simp [get_user_tasks, mem_sort_by_due, List.mem_filter, decide_eq_true_eq,
      and_assoc, secondsPerDay]
    tauto
  · simp [get_user_tasks, mem_sort_by_due, List.mem_filter, decide_eq_true_eq,
      and_assoc]
    tauto
  · simp [get_user_tasks, mem_sort_by_due, List.mem_filter, decide_eq_true_eq,
      and_assoc]
    tauto
  · simp [get_user_tasks, mem_sort_by_due, List.mem_filter, decide_eq_true_eq,
      and_assoc]
    tauto
  · intro qt hq1 hq2 hq3 hq4 hq5 hq6
    simp only [get_user_tasks]
    rw [if_neg hq2, if_neg hq3, if_neg hq1, if_neg hq4, if_neg hq5, if_neg hq6]
    simp [mem_sort_by_due, List.mem_filter, decide_eq_true_eq, and_assoc]
    tauto
  · intro msg tmid qt
    constructor <;> (simp only [parse_user_message, intake_finish]; split <;> rfl)

/-- C6 witness: a single pending task due at 90000 (01:00 of day 1) is
returned by the morning query and by the default (today) query at
now = 100000. -/
theorem C6_query_windows_witness :
    mkTask 1 1 .pending 90000 0 0 ∈
      get_user_tasks (mkDB [mkTask 1 1 .pending 90000 0 0]) 1 "morning" 100000 ∧
    mkTask 1 1 .pending 90000 0 0 ∈
      get_user_tasks (mkDB [mkTask 1 1 .pending 90000 0 0]) 1 "today" 100000 := by
  have h := C6_query_windows (mkDB [mkTask 1 1 .pending 90000 0 0]) 1 100000
    (mkTask 1 1 .pending 90000 0 0)
  refine ⟨h.1.mpr (by decide), ?_⟩
  exact (h.2.2.2.2.2.2.1 "today" (by decide) (by decide) (by decide) (by decide)
    (by decide) (by decide)).mpr (by decide)

def taskC8 : Task := mkTask 1 1 .in_progress 500 10 0

def dbC8 : DB := mkDB [taskC8]

/-- C8 counterexample: the owner has one non-terminal task (status
in_progress), yet the modify intent mutates no task, schedules nothing,
and answers could-not-find — the router only ever targets pending
tasks, not all non-terminal ones as the claim states. -/
theorem C8_counterexample :
    dbC8.tasks = [taskC8] ∧
    taskC8.status ≠ .completed ∧ taskC8.status ≠ .cancelled ∧
    (parse_user_message 1000 dbC8 1 "move it" none (.modify_task (some 2000))).db.tasks =
      dbC8.tasks ∧
    (parse_user_message 1000 dbC8 1 "move it" none (.modify_task (some 2000))).sent =
      [.modifyNotFound] ∧
    (parse_user_message 1000 dbC8 1 "move it" none
      (.modify_task (some 2000))).enqueued = [] := by
  decide

/-- C8 (amended): on a modify_task intent with a new due time, the
router locates the owner's most recently created pending task (tie
break: latest created_at), applies the new due time to it, and
re-schedules its dispatch job at the new due time; if no pending task
exists, no task is mutated and the user is asked to be more specific. -/
theorem C8_modify_targets_latest_pending (now : Time) (db : DB) (userId : Nat)
    (d : Time) (msg : String) :
    (∀ task : Task, find_recent_task db userId = some task →
      task ∈ db.tasks ∧ task.userId = userId ∧ task.status = .pending ∧
      (∀ u ∈ db.tasks, u.userId = userId → u.status = .pending →
        u.createdAt ≤ task.createdAt) ∧
      parse_user_message now db userId msg none (.modify_task (some d)) =
        { db := { db with
            tasks := db.tasks.map
              (fun u => if u.id = task.id then { task with dueAt := d } else u),
            logs := db.logs ++
              [{ userId := userId, direction := .incoming, content := msg,
                 telegramMessageId := none },
               { userId := userId, direction := .outgoing, content := "",
                 telegramMessageId := none }] },
          enqueued := [⟨.dispatch task.id, d⟩],
          sent := [.modifyConfirmation task.title d] }) ∧
    (find_recent_task db userId = none →
      (∀ u ∈ db.tasks, ¬(u.userId = userId ∧ u.status = .pending)) ∧
      (parse_user_message now db userId msg none
        (.modify_task (some d))).db.tasks = db.tasks ∧
      (parse_user_message now db userId msg none
        (.modify_task (some d))).enqueued = [] ∧
      (parse_user_message now db userId msg none
        (.modify_task (some d))).sent = [.modifyNotFound]) := by
  constructor
  · intro task h
    obtain ⟨hmem, huid, hst, hmax⟩ := find_recent_task_some db userId task h
    refine ⟨hmem, huid, hst, hmax, ?_⟩
    have h0 : find_recent_task
        { db with logs := db.logs ++
          [{ userId := userId, direction := .incoming, content := msg,
             telegramMessageId := none }] } userId = some task := h
    simp only [parse_user_message, find_and_modify_task, intake_finish, h0,
      DB.saveTask]
    simp
  · intro h
    have h0 : find_recent_task
        { db with logs := db.logs ++
          [{ userId := userId, direction := .incoming, content := msg,
             telegramMessageId := none }] } userId = none := h
    refine ⟨find_recent_task_none db userId h, ?_⟩
    simp only [parse_user_message, find_and_modify_task, intake_finish, h0]
    simp

def dbC8w : DB := mkDB [mkTask 1 1 .pending 40 5 0, mkTask 2 1 .pending 50 10 0]

/-- C8 witness: of two pending tasks the one created later (id 2) is
modified and its dispatch re-scheduled at the new due time. -/
theorem C8_modify_targets_latest_pending_witness :
    (parse_user_message 1000 dbC8w 1 "later" none (.modify_task (some 7000))).sent =
      [.modifyConfirmation "call mom" 7000] ∧
    (parse_user_message 1000 dbC8w 1 "later" none
      (.modify_task (some 7000))).enqueued = [⟨.dispatch 2, 7000⟩] := by
  have h := (C8_modify_targets_latest_pending 1000 dbC8w 1 7000 "later").1
    (mkTask 2 1 .pending 50 10 0) (by decide)
  rw [h.2.2.2.2]
  exact ⟨rfl, rfl⟩

def taskC9 : Task := mkTask 1 1 .pending 400 0 0

def dbC9 : DB := mkDB [taskC9]

def dbC9snoozed : DB := (handle_callback_query 1000 dbC9 "snooze" 1 77 555).1

/-- C9 counterexample: a delete callback leaves the task pending (it is
not cancelled, only Unknown-action is acknowledged), and redelivering
the same snooze callback (same callback id 555) at a later time
re-applies the snooze, moving snoozed_until from 2800 to 3800 — so
handling is neither delete-capable nor idempotent per callback id. -/
theorem C9_counterexample :
    handle_callback_query 1000 dbC9 "delete" 1 77 999 =
      (dbC9, some (999, .unknownActionAck)) ∧
    (dbC9.getTask 1).map Task.status = some .pending ∧
    ((handle_callback_query 1000 dbC9 "delete" 1 77 999).1.getTask 1).map
      Task.status = some .pending ∧
    (dbC9snoozed.getTask 1).map Task.snoozedUntil = some (some 2800) ∧
    ((handle_callback_query 2000 dbC9snoozed "snooze" 1 77 555).1.getTask 1).map
      Task.snoozedUntil = some (some 3800) := by
  decide

/-- C9 (amended): the callback handler supports complete (task becomes
completed) and snooze (task becomes snoozed with snoozed_until 30
minutes in the future); any other action, including delete, changes no
task and acknowledges Unknown action; and handling keeps no record of
the callback id — the resulting repository state is independent of it —
so redelivered callbacks re-apply their effect. -/
theorem C9_callback_actions (now : Time) (db : DB) (action : String)
    (taskId chatId cbId userId : Nat) (task : Task)
    (hu : db.chatUsers.find? (fun p => decide (p.1 = chatId)) =
      some (chatId, userId))
    (ht : db.tasks.find? (fun t => decide (t.id = taskId ∧ t.userId = userId)) =
      some task) :
    (action = "complete" →
      handle_callback_query now db action taskId chatId cbId =
        (db.saveTask { task with status := .completed, completedAt := some now },
         some (cbId, .completedAck task.title))) ∧
    (action = "snooze" →
      handle_callback_query now db action taskId chatId cbId =
        (db.saveTask
          { task with
            status := .snoozed,
            snoozedUntil := some (now + 30 * secondsPerMinute) },
         some (cbId, .snoozedAck task.title)) ∧
      now < now + 30 * secondsPerMinute) ∧
    (action ≠ "complete" → action ≠ "snooze" →
      handle_callback_query now db action taskId chatId cbId =
        (db, some (cbId, .unknownActionAck))) ∧
    (∀ c1 c2 : Nat,
      (handle_callback_query now db action taskId chatId c1).1 =
      (handle_callback_query now db action taskId chatId c2).1) := by
  have ht2 : db.tasks.find?
      (fun t => decide (t.id = taskId) && decide (t.userId = userId)) =
      some task := by
    simpa using ht
  refine ⟨?_, ?_, ?_, ?_⟩
  · intro ha
    simp [handle_callback_query, get_or_create_user_from_chat_id, hu, ht2, ha,
      Task.mark_completed]
  · intro ha
    constructor
    · simp [handle_callback_query, get_or_create_user_from_chat_id, hu, ht2, ha,
        Task.snooze]
    · simp [secondsPerMinute]
  · intro ha1 ha2
    simp [handle_callback_query, get_or_create_user_from_chat_id, hu, ht2,
      if_neg ha1, if_neg ha2]
  · intro c1 c2
    by_cases ha1 : action = "complete"
    · simp [handle_callback_query, get_or_create_user_from_chat_id, hu, ht2, ha1]
    · by_cases ha2 : action = "snooze"
      · simp [handle_callback_query, get_or_create_user_from_chat_id, hu, ht2,
          ha2, if_neg ha1]
      · simp [handle_callback_query, get_or_create_user_from_chat_id, hu, ht2,
          if_neg ha1, if_neg ha2]

/-- C9 witness: concrete complete, snooze and delete callbacks. -/
theorem C9_callback_actions_witness :
    handle_callback_query 1000 dbC9 "complete" 1 77 9 =
      (dbC9.saveTask { taskC9 with status := .completed, completedAt := some 1000 },
       some (9, .completedAck "call mom")) ∧
    handle_callback_query 1000 dbC9 "snooze" 1 77 9 =
      (dbC9.saveTask
        { taskC9 with
          status := .snoozed,
          snoozedUntil := some 2800 },
       some (9, .snoozedAck "call mom")) ∧
    handle_callback_query 1000 dbC9 "delete" 1 77 9 =
      (dbC9, some (9, .unknownActionAck)) := by
  have h1 := C9_callback_actions 1000 dbC9 "complete" 1 77 9 1 taskC9
    (by decide) (by decide)
  have h2 := C9_callback_actions 1000 dbC9 "snooze" 1 77 9 1 taskC9
    (by decide) (by decide)
  have h3 := C9_callback_actions 1000 dbC9 "delete" 1 77 9 1 taskC9
    (by decide) (by decide)
  exact ⟨h1.1 rfl, (h2.2.1 rfl).1, h3.2.2.1 (by decide) (by decide)⟩

def dbC1 : DB :=
  { tasks := [], reminders := [], logs := [], chatUsers := [(12345, 1)],
    nextTaskId := 1, nextUserId := 2 }

def updC1 : Update := .message 12345 "Test message" 123

def intakeRun1 : IntakeResult :=
  parse_user_message 70 dbC1 1 "Test message" (some 123) (.new_task "call mom" 500)

def intakeRun2 : IntakeResult :=
  parse_user_message 80 intakeRun1.db 1 "Test message" (some 123)
    (.new_task "call mom" 500)

/-- C1: the webhook ingress applies no idempotency check — delivering
the same Telegram update (message id 123) a second time enqueues a
second message-intake job, contrary to the claimed ingress layer (and to
tests.py, which requires the duplicate delivery not to enqueue) — while
the execution layer does deduplicate: running the intake job twice for
the same message id creates exactly one task, sends exactly one
response, and the second run changes nothing. -/
theorem C1_ingress_no_dedup :
    (telegram_webhook 50 dbC1 updC1).enqueued =
      [.intake 1 "Test message" (some 123)] ∧
    (telegram_webhook 50 dbC1 updC1).db = dbC1 ∧
    (telegram_webhook 60 (telegram_webhook 50 dbC1 updC1).db updC1).enqueued =
      [.intake 1 "Test message" (some 123)] ∧
    intakeRun1.db.tasks.length = 1 ∧
    intakeRun1.sent.length = 1 ∧
    intakeRun1.enqueued = [⟨.dispatch 1, 500⟩] ∧
    intakeRun2.db = intakeRun1.db ∧
    intakeRun2.sent = [] ∧
    intakeRun2.enqueued = [] := by
  decide

end Kabanda
